import Mathlib

/-!
# Verification of the dual-KrakenSDR calibration orchestrator

Shallow embedding of the calibration subsystem of this repository
(`optimized_dual_kraken_calibration.py`, `krakensdr_doa/dual_sdr_optimizer.py`,
`krakensdr_doa/optimize_existing_kraken_system.py`,
`kraken_calibration_optimizer.py`) together with theorems settling the
frozen specification claims.

Modelling conventions:
* Python floats are embedded as exact rationals (`ℚ`); numpy arrays as `List ℚ`.
* Complex values are pairs `ℚ × ℚ`; the transcendental `np.exp(1j*phi)` is an
  explicit function parameter `cexp : ℚ → ℚ × ℚ` of every definition that
  needs it, so everything stays executable.
* File I/O is embedded as explicit state: the cache file is an
  `Option (CacheRecord α)` passed in and returned.
* A raised Python exception is `Except.error` with the exception's kind.
-/

/-- Python exceptions that the embedded code can raise:
`keyError` models a `KeyError` from a dict access, `zeroDivisionError`
models numpy's `ZeroDivisionError` from `np.arange` with step 0, and
`indexError` models numpy's `IndexError` from indexing an array with the
empty float64 array `np.array([])`. -/
inductive PyError where
  | keyError
  | zeroDivisionError
  | indexError
deriving DecidableEq, Repr

/-- Per-SDR calibration payload, the dict built by
`OptimizedDualKrakenCalibration._simulate_sdr_calibration`
(fields `antenna_gains`, `phase_offsets`, `frequency_response`,
`noise_floor`, `calibration_matrix`, `timestamp`). -/
structure CalData where
  antenna_gains : List ℚ
  phase_offsets : List ℚ
  frequency_response : List ℚ
  noise_floor : ℚ
  calibration_matrix : List (List (ℚ × ℚ))
  timestamp : ℚ
deriving DecidableEq, Repr

/-- One entry of the result queue filled by
`OptimizedDualKrakenCalibration._calibrate_single_sdr`: on success the dict
holds a `"calibration_data"` key, on error it holds `"error"`/`"status"`
only (so a later `["calibration_data"]` access raises `KeyError`). -/
inductive SdrOutcome where
  | success (calibration_data : CalData)
  | error (msg : String)
deriving DecidableEq, Repr

/-- Elementwise numpy-style average `(a + b) / 2` of two equal-length
arrays, as used on `antenna_gains` and `phase_offsets` in
`optimize_calibration_matrices` (the source arrays always have equal
length, the antenna count). -/
def avgList (a b : List ℚ) : List ℚ :=
  List.zipWith (fun x y => (x + y) / 2) a b

/-- Complex scalar scaling `a * z` for `z : ℚ × ℚ`. -/
def cscale (a : ℚ) (z : ℚ × ℚ) : ℚ × ℚ :=
  (a * z.1, a * z.2)

/-- `OptimizedDualKrakenCalibration._precompute_calibration_matrix`:
`cal_matrix[i][j] = gains[i] * exp(1j*phases[i])` on the diagonal and
`0.1 * gains[i] * exp(1j*phases[i])` off the diagonal, for
`i, j < len(gains)`.  `cexp` stands for `np.exp(1j*_)`. -/
def precomputeCalibrationMatrix (cexp : ℚ → ℚ × ℚ) (d : CalData) : List (List (ℚ × ℚ)) :=
  let gains := d.antenna_gains
  let phases := d.phase_offsets
  let n := gains.length
  (List.range n).map (fun i =>
    (List.range n).map (fun j =>
      if i = j then cscale (gains.getD i 0) (cexp (phases.getD i 0))
      else cscale (1 / 10 * gains.getD i 0) (cexp (phases.getD i 0))))

/-- `OptimizedDualKrakenCalibration.optimize_calibration_matrices`.
If `shared_calibration_data` is false the input dict is returned unchanged.
Otherwise the code reads `calibration_data["sdr1"]["calibration_data"]`
and `...["sdr2"]["calibration_data"]` (a `KeyError` if either unit's entry
is an error entry), averages `antenna_gains`, `phase_offsets` and
`noise_floor` across the two units, writes the shared values into both
units, and, when `precompute_matrices` is set, recomputes each unit's
`calibration_matrix` from its (now shared) gains and phases. -/
def optimizeCalibrationMatrices (cexp : ℚ → ℚ × ℚ) (shared precompute : Bool)
    (o1 o2 : SdrOutcome) : Except PyError (SdrOutcome × SdrOutcome) :=
  if shared then
    match o1, o2 with
    | SdrOutcome.success d1, SdrOutcome.success d2 =>
      let sharedGains := avgList d1.antenna_gains d2.antenna_gains
      let sharedPhases := avgList d1.phase_offsets d2.phase_offsets
      let sharedNoise := (d1.noise_floor + d2.noise_floor) / 2
      let d1a : CalData :=
        ⟨sharedGains, sharedPhases, d1.frequency_response, sharedNoise,
          d1.calibration_matrix, d1.timestamp⟩
      let d2a : CalData :=
        ⟨sharedGains, sharedPhases, d2.frequency_response, sharedNoise,
          d2.calibration_matrix, d2.timestamp⟩
      let d1b : CalData :=
        if precompute then
          ⟨sharedGains, sharedPhases, d1.frequency_response, sharedNoise,
            precomputeCalibrationMatrix cexp d1a, d1.timestamp⟩
        else d1a
      let d2b : CalData :=
        if precompute then
          ⟨sharedGains, sharedPhases, d2.frequency_response, sharedNoise,
            precomputeCalibrationMatrix cexp d2a, d2.timestamp⟩
        else d2a
      Except.ok (SdrOutcome.success d1b, SdrOutcome.success d2b)
    | _, _ => Except.error PyError.keyError
  else Except.ok (o1, o2)

/-- `OptimizedDualKrakenCalibration.run_optimized_calibration`.
`cached` is the value returned by `load_calibration_cache()` (file I/O made
explicit); when `use_cached_calibration` is set and the load produced a
value it is returned immediately.  Otherwise the per-unit outcomes `o1`,
`o2` (the abstract hardware results collected in parallel or sequentially —
both collection paths yield the same pair) are fused by
`optimize_calibration_matrices`; the subsequent `save_calibration_cache`
and performance printout do not affect the returned value. -/
def runOptimizedCalibration (cexp : ℚ → ℚ × ℚ) (useCached : Bool)
    (cached : Option (SdrOutcome × SdrOutcome)) (shared precompute : Bool)
    (o1 o2 : SdrOutcome) : Except PyError (SdrOutcome × SdrOutcome) :=
  match useCached, cached with
  | true, some c => Except.ok c
  | true, none => optimizeCalibrationMatrices cexp shared precompute o1 o2
  | false, _ => optimizeCalibrationMatrices cexp shared precompute o1 o2

/-- The fields of `DualKrakenOptimizer`'s configuration that its cache
logic reads, plus `frequencyStep` so that two configurations can differ
while keeping the same cache settings (the source config also carries
sample rate, frequency range, etc.; one representative extra field
suffices for the embedding because the cache logic reads none of them). -/
structure DualConfig where
  cacheEnabled : Bool
  cacheValidityHours : ℚ
  frequencyStep : ℚ
deriving DecidableEq, Repr

/-- The on-disk cache record written by
`DualKrakenOptimizer.save_calibration_cache`:
`{"calibration_data": ..., "timestamp": time.time(), "config": self.config}`.
The payload type is a parameter. -/
structure CacheRecord (α : Type) where
  calibration_data : α
  timestamp : ℚ
  config : DualConfig
deriving DecidableEq, Repr

/-- `DualKrakenOptimizer.check_calibration_cache`: returns `none` when
caching is disabled or no cache file exists; otherwise reads the record
and returns it iff `time.time() - cache_data["timestamp"] <
cache_validity_hours * 3600` (strict comparison).  No field of the record
other than `timestamp` is inspected — in particular the stored `config`
is never compared against the current one. -/
def checkCalibrationCache {α : Type} (cfg : DualConfig)
    (file : Option (CacheRecord α)) (now : ℚ) : Option (CacheRecord α) :=
  if cfg.cacheEnabled then
    match file with
    | none => none
    | some rec =>
      if now - rec.timestamp < cfg.cacheValidityHours * 3600 then some rec
      else none
  else none

/-- `DualKrakenOptimizer.save_calibration_cache`: a no-op when caching is
disabled; otherwise overwrites the cache file with
`{"calibration_data": data, "timestamp": now, "config": cfg}`. -/
def saveCalibrationCache {α : Type} (cfg : DualConfig)
    (file : Option (CacheRecord α)) (data : α) (now : ℚ) :
    Option (CacheRecord α) :=
  if cfg.cacheEnabled then some ⟨data, now, cfg⟩ else file

/-- `np.arange(start, stop, step)` on exact numbers, for `step ≠ 0`:
`max 0 ⌈(stop - start) / step⌉` points `start + i * step`. -/
def npArange (start stop step : ℚ) : List ℚ :=
  (List.range (⌈(stop - start) / step⌉.toNat)).map (fun i : ℕ => start + (i : ℚ) * step)

/-- `OptimizedDualKrakenCalibration._get_calibration_frequencies`:
`np.arange(freq_start, freq_end + freq_step, freq_step)`.  With a zero
step numpy raises `ZeroDivisionError`; no other validation is performed. -/
def getCalibrationFrequencies (freqStart freqEnd freqStep : ℚ) :
    Except PyError (List ℚ) :=
  if freqStep = 0 then Except.error PyError.zeroDivisionError
  else Except.ok (npArange freqStart (freqEnd + freqStep) freqStep)

/-- The `while current_freq <= end_freq` loop of
`KrakenSystemOptimizer._reduce_frequency_points`, instrumented with fuel:
`none` means the loop has not finished within `fuel` iterations, so
`∀ fuel, ... = none` states non-termination. -/
def freqLoopFuel (step endFreq : ℚ) : ℕ → ℚ → Option (List ℚ)
  | 0, _ => none
  | fuel + 1, cur =>
    if cur ≤ endFreq then
      (freqLoopFuel step endFreq fuel (cur + step)).map (fun l => cur :: l)
    else some []

/-- `KrakenSystemOptimizer._reduce_frequency_points`: the fuel-indexed
loop started at the hard-coded `start_freq = 50e6` with
`end_freq = 200e6` and `step = frequency_step_mhz * 1e6`. -/
def reduceFrequencyPointsFuel (stepMhz : ℚ) (fuel : ℕ) : Option (List ℚ) :=
  freqLoopFuel (stepMhz * 1000000) 200000000 fuel 50000000

/-- `np.fft.fftfreq(n, d)`: `[0, 1, ..., ⌈n/2⌉-1, -⌊n/2⌋, ..., -1] / (n*d)`. -/
def fftfreq (n : ℕ) (d : ℚ) : List ℚ :=
  (List.range n).map (fun i =>
    (if i < (n + 1) / 2 then (i : ℚ) else (i : ℚ) - n) / (n * d))

/-- `FrequencyDomainOptimizer._find_peaks`: indices `i` with
`1 ≤ i ≤ len(data) - 2` whose value strictly exceeds both neighbours and
the absolute threshold (the source's default `0.1`, which the single call
site uses). -/
def findPeaks (data : List ℚ) (threshold : ℚ) : List ℕ :=
  (List.range data.length).filter (fun i =>
    decide (0 < i) && decide (i + 1 < data.length) &&
    decide (data.getD (i - 1) 0 < data.getD i 0) &&
    decide (data.getD (i + 1) 0 < data.getD i 0) &&
    decide (threshold < data.getD i 0))

/-- `np.sort` of a rational array. -/
def npSort (data : List ℚ) : List ℚ :=
  List.insertionSort (· ≤ ·) data

/-- `np.percentile(data, 10)` with numpy's default linear interpolation:
for sorted data `s` of length `n`, rank `k = (n-1) * 10/100`, the result
interpolates between `s[⌊k⌋]` and `s[⌊k⌋+1]`.  (numpy's behaviour on an
empty array is irrelevant here: the call site always passes an array of
`fft_size > 0` elements.) -/
def percentile10 (data : List ℚ) : ℚ :=
  let s := npSort data
  let n := s.length
  if n = 0 then 0
  else
    let k : ℚ := (n - 1) * 10 / 100
    let i : ℕ := ⌊k⌋.toNat
    let frac : ℚ := k - i
    if i + 1 < n then s.getD i 0 + frac * (s.getD (i + 1) 0 - s.getD i 0)
    else s.getD i 0

/-- `FrequencyDomainOptimizer.optimize_frequency_hopping`, from the power
spectrum onward (the FFT front-end `np.abs(np.fft.fft(signal))**2` is a
preprocessing step; the claims quantify over the power spectrum itself,
which at the call site has `fft_size` entries, so the peak indices stay
within `freq_bins`).  `_find_peaks` returns `np.array(peaks)`: when no
peak is detected this is the *empty float64* array, and the next line
`self.freq_bins[peak_indices]` raises `IndexError` (non-integer array
index) before the noise floor is even computed.  Otherwise it estimates
the noise floor as the 10th percentile, keeps the peaks whose power
exceeds twice the noise floor, and returns their `freq_bins` frequencies
— possibly the empty list.  There is no fallback path of any kind. -/
def optimizeFrequencyHopping (sampleRate : ℚ) (fftSize : ℕ)
    (powerSpectrum : List ℚ) : Except PyError (List ℚ) :=
  let freqBins := fftfreq fftSize (1 / sampleRate)
  let peakIndices := findPeaks powerSpectrum (1 / 10)
  if peakIndices = [] then Except.error PyError.indexError
  else
    let noiseFloor := percentile10 powerSpectrum
    Except.ok
      ((peakIndices.filter
          (fun i => decide (noiseFloor * 2 < powerSpectrum.getD i 0))).map
        (fun i => freqBins.getD i 0))

/-- C1, counterexample: the claim requires the lookup to return a record
only if the record's configuration fingerprint matches the current
configuration.  The code never compares configurations: a fresh record
persisted under a different configuration (here `frequencyStep` 1 MHz vs
the current 5 MHz) is still returned. -/
theorem claim_c1_counterexample :
    checkCalibrationCache (⟨true, 1, 5000000⟩ : DualConfig)
        (some (⟨(42 : ℚ), 0, ⟨true, 1, 1000000⟩⟩ : CacheRecord ℚ)) 100 =
      some ⟨42, 0, ⟨true, 1, 1000000⟩⟩ ∧
    (⟨true, 1, 1000000⟩ : DualConfig) ≠ ⟨true, 1, 5000000⟩ := by
  exact ⟨by norm_num [checkCalibrationCache], by norm_num⟩

/-- C1 (amended): the cache lookup returns the persisted record iff
caching is enabled and `now - created_at < ttl` with *strict* comparison
(`cache_age < cache_validity_hours * 3600`); the configuration fingerprint
is never checked, so a fresh record stored under a different configuration
is returned alike.  In every other case (age reaching the TTL, no record,
caching disabled) it returns nothing — a miss, not an error.  With TTL
3600 s a record aged 3601 s is a miss and one aged 3599 s is returned. -/
theorem claim_c1_lookup_characterization (α : Type) (cfg : DualConfig)
    (file : Option (CacheRecord α)) (now : ℚ) (rec : CacheRecord α) :
    checkCalibrationCache cfg file now = some rec ↔
      file = some rec ∧ cfg.cacheEnabled = true ∧
        now - rec.timestamp < cfg.cacheValidityHours * 3600 := by
  unfold checkCalibrationCache
  cases hc : cfg.cacheEnabled <;> cases file <;> simp_all
  rename_i r
  constructor
  · rintro ⟨h1, rfl⟩
    exact ⟨rfl, h1⟩
  · rintro ⟨rfl, h2⟩
    exact ⟨h2, rfl⟩

/-- C1 witness: with TTL 3600 s (validity 1 hour) a record of age 3599 s
is returned (via the characterization) and one of age 3601 s is a miss. -/
theorem claim_c1_witness :
    checkCalibrationCache (⟨true, 1, 5000000⟩ : DualConfig)
        (some (⟨(42 : ℚ), 0, ⟨true, 1, 5000000⟩⟩ : CacheRecord ℚ)) 3599 =
      some ⟨42, 0, ⟨true, 1, 5000000⟩⟩ ∧
    checkCalibrationCache (⟨true, 1, 5000000⟩ : DualConfig)
        (some (⟨(42 : ℚ), 0, ⟨true, 1, 5000000⟩⟩ : CacheRecord ℚ)) 3601 =
      none := by
  refine ⟨(claim_c1_lookup_characterization ℚ _ _ _ _).mpr ⟨rfl, rfl, by norm_num⟩,
    by norm_num [checkCalibrationCache]⟩

/-- C8, counterexample: the round-trip claim quantifies over *every*
config; with `cache_enabled = false` the store is a no-op and the lookup
returns nothing rather than a record whose payload equals the stored
result. -/
theorem claim_c8_counterexample :
    checkCalibrationCache (⟨false, 1, 5000000⟩ : DualConfig)
        (saveCalibrationCache ⟨false, 1, 5000000⟩ none (42 : ℚ) 7) 7 =
      none := by
  decide

/-- C8 (amended): for every config with caching enabled and a strictly
positive validity window, a store immediately followed by a lookup under
the same config returns the just-written record, whose payload
(`calibration_data`) equals the stored result. -/
theorem claim_c8_roundtrip (α : Type) (cfg : DualConfig)
    (file : Option (CacheRecord α)) (data : α) (now : ℚ)
    (henabled : cfg.cacheEnabled = true) (httl : 0 < cfg.cacheValidityHours) :
    checkCalibrationCache cfg (saveCalibrationCache cfg file data now) now =
      some ⟨data, now, cfg⟩ := by
  have hpos : (0 : ℚ) < cfg.cacheValidityHours * 3600 := by positivity
  unfold saveCalibrationCache checkCalibrationCache
  simp [henabled, sub_self, hpos]

/-- C8 witness: a concrete enabled config with a 1-hour window; the
round-trip at time 7 returns the record with payload 42. -/
theorem claim_c8_witness :
    checkCalibrationCache (⟨true, 1, 5000000⟩ : DualConfig)
        (saveCalibrationCache ⟨true, 1, 5000000⟩ none (42 : ℚ) 7) 7 =
      some ⟨42, 7, ⟨true, 1, 5000000⟩⟩ :=
  claim_c8_roundtrip ℚ ⟨true, 1, 5000000⟩ none 42 7 rfl (by norm_num)

/-- C4, counterexample: for `f_lo = 0`, `f_hi = 10`, `step = 4` (step > 0,
f_hi > f_lo, step not dividing the range) the arange-based fixed-step plan
is `[0, 4, 8, 12]`: its last element `12` exceeds `f_hi = 10`, and its
length is 4, not `⌊(f_hi - f_lo)/step⌋ + 1 = 3`, refuting the claim. -/
theorem claim_c4_counterexample :
    getCalibrationFrequencies 0 10 4 = Except.ok [0, 4, 8, 12] ∧
      ¬ ((12 : ℚ) ≤ 10) ∧ ([(0 : ℚ), 4, 8, 12].length ≠ 3) := by
  refine ⟨?_, by norm_num, by norm_num⟩
  have h2 : (⌈(((10 : ℚ) + 4) - 0) / 4⌉ : ℤ) = 4 := by
    rw [Int.ceil_eq_iff]; norm_num
  unfold getCalibrationFrequencies npArange
  rw [if_neg (by norm_num), h2]
  simp [List.range_succ]
  norm_num

/-- C4 (amended): for `step > 0` and `f_hi > f_lo` the arange-based
fixed-step plan `np.arange(f_lo, f_hi + step, step)` is a strictly
increasing sequence starting at `f_lo` whose every element is below
`f_hi + step`; only when `step` divides `f_hi - f_lo` exactly does the
claimed form hold: length `(f_hi - f_lo)/step + 1` and last element
`f_hi` (otherwise the plan overshoots `f_hi`, as the counterexample
shows). -/
theorem claim_c4_plan (fLo fHi step : ℚ) (hstep : 0 < step) (hrange : fLo < fHi) :
    ∃ l, getCalibrationFrequencies fLo fHi step = Except.ok l ∧
      l.head? = some fLo ∧
      List.Pairwise (· < ·) l ∧
      (∀ x ∈ l, x < fHi + step) ∧
      ∀ n : ℕ, fHi - fLo = n * step →
        l.length = n + 1 ∧ l.getLast? = some fHi := by
  have hne : step ≠ 0 := ne_of_gt hstep
  refine ⟨npArange fLo (fHi + step) step, ?_, ?_, ?_, ?_, ?_⟩
  · unfold getCalibrationFrequencies
    rw [if_neg hne]
  · have hq : 0 < (fHi + step - fLo) / step :=
      div_pos (by linarith) hstep
    have hceil : 0 < ⌈(fHi + step - fLo) / step⌉ := Int.ceil_pos.mpr hq
    have hpos : 0 < (⌈(fHi + step - fLo) / step⌉).toNat := Int.lt_toNat.mpr hceil
    obtain ⟨L, hL⟩ := Nat.exists_eq_succ_of_ne_zero (Nat.pos_iff_ne_zero.mp hpos)
    unfold npArange
    rw [hL, List.range_succ_eq_map]
    simp
  · unfold npArange
    rw [List.pairwise_map]
    refine (List.pairwise_lt_range _).imp ?_
    intro i j hij
    have hc : (i : ℚ) < j := by exact_mod_cast hij
    have := mul_lt_mul_of_pos_right hc hstep
    linarith
  · intro x hx
    unfold npArange at hx
    rw [List.mem_map] at hx
    obtain ⟨i, hi, rfl⟩ := hx
    rw [List.mem_range] at hi
    have h1 : (i : ℤ) < ⌈(fHi + step - fLo) / step⌉ := Int.lt_toNat.mp hi
    have h2 : ((i : ℤ) : ℚ) < (fHi + step - fLo) / step := Int.lt_ceil.mp h1
    have h3 : (i : ℚ) < (fHi + step - fLo) / step := by exact_mod_cast h2
    have h4 : (i : ℚ) * step < (fHi + step - fLo) / step * step :=
      mul_lt_mul_of_pos_right h3 hstep
    rw [div_mul_cancel₀ _ hne] at h4
    linarith
  · intro n hn
    have hq : (fHi + step - fLo) / step = (n : ℚ) + 1 := by
      rw [div_eq_iff hne]
      linarith [hn]
    have hcast : ((n : ℚ) + 1) = ((n + 1 : ℕ) : ℚ) := by push_cast; ring
    have hceil : ⌈(fHi + step - fLo) / step⌉ = (n + 1 : ℕ) := by
      rw [hq, hcast, Int.ceil_natCast]
    constructor
    · unfold npArange
      rw [hceil]
      simp
    · unfold npArange
      rw [hceil]
      simp only [Int.toNat_natCast, List.range_succ, List.map_append, List.map_cons,
        List.map_nil]
      rw [List.getLast?_concat]
      congr 1
      linarith

/-- C4 witness, the spec's concrete scenario 2: `f_lo = 50e6`,
`f_hi = 200e6`, `step = 5e6` (which divides the range: 30 steps) gives a
31-entry plan from 50e6 to 200e6. -/
theorem claim_c4_witness :
    ∃ l, getCalibrationFrequencies 50000000 200000000 5000000 = Except.ok l ∧
      l.head? = some 50000000 ∧ l.length = 31 ∧ l.getLast? = some 200000000 := by
  obtain ⟨l, h1, h2, _, _, h5⟩ :=
    claim_c4_plan 50000000 200000000 5000000 (by norm_num) (by norm_num)
  obtain ⟨h6, h7⟩ := h5 30 (by norm_num)
  exact ⟨l, h1, h2, h6, h7⟩

/-- C9, counterexample: the claim requires `InvalidRangeError` for
`step ≤ 0`; the code does no validation — with `step = -5e6` over the
default 50–200 MHz range the planner returns an (empty) plan without
raising anything. -/
theorem claim_c9_counterexample :
    getCalibrationFrequencies 50000000 200000000 (-5000000) = Except.ok [] := by
  have h : (((200000000 : ℚ) + -5000000) - 50000000) / (-5000000) =
      ((-29 : ℤ) : ℚ) := by
    norm_num
  unfold getCalibrationFrequencies npArange
  rw [if_neg (by norm_num), h, Int.ceil_intCast]
  rfl

/-- C9 (amended): no `InvalidRangeError` exists.  For `step = 0` the
planner propagates numpy's `ZeroDivisionError` (from
`np.arange(..., 0)`); for `step < 0` it raises nothing and returns a plan,
which is empty whenever `f_lo ≤ f_hi + step` (in particular for any
negative step smaller in magnitude than the range); a range yielding zero
points is likewise returned silently as the empty plan. -/
theorem claim_c9_behavior (fLo fHi step : ℚ) :
    (step = 0 →
      getCalibrationFrequencies fLo fHi step =
        Except.error PyError.zeroDivisionError) ∧
    (step < 0 → ∃ l, getCalibrationFrequencies fLo fHi step = Except.ok l ∧
      (fLo ≤ fHi + step → l = [])) := by
  constructor
  · intro h
    unfold getCalibrationFrequencies
    rw [if_pos h]
  · intro hstep
    have hne : step ≠ 0 := ne_of_lt hstep
    refine ⟨npArange fLo (fHi + step) step, ?_, ?_⟩
    · unfold getCalibrationFrequencies
      rw [if_neg hne]
    · intro hr
      have hnum : 0 ≤ fHi + step - fLo := by linarith
      have hq : (fHi + step - fLo) / step ≤ 0 :=
        div_nonpos_of_nonneg_of_nonpos hnum (le_of_lt hstep)
      have hceil : ⌈(fHi + step - fLo) / step⌉ ≤ 0 := by
        rw [Int.ceil_le]
        simpa using hq
      unfold npArange
      rw [Int.toNat_of_nonpos hceil]
      rfl

/-- C9 witness: over the default 50–200 MHz range, step 0 yields the
`ZeroDivisionError` and step `-5e6` yields an empty plan with no error. -/
theorem claim_c9_witness :
    getCalibrationFrequencies 50000000 200000000 0 =
      Except.error PyError.zeroDivisionError ∧
    ∃ l, getCalibrationFrequencies 50000000 200000000 (-5000000) =
      Except.ok l ∧ l = [] := by
  refine ⟨(claim_c9_behavior 50000000 200000000 0).1 rfl, ?_⟩
  obtain ⟨l, hl, he⟩ :=
    (claim_c9_behavior 50000000 200000000 (-5000000)).2 (by norm_num)
  exact ⟨l, hl, he (by norm_num)⟩

/-- Helper: with a strictly positive step, the loop finishes once the fuel
exceeds the number of remaining iterations (any `k` with
`endFreq - cur < k * step`). -/
theorem freqLoopFuel_isSome (step endFreq : ℚ) :
    ∀ (k : ℕ) (cur : ℚ), endFreq - cur < (k : ℚ) * step →
      (freqLoopFuel step endFreq (k + 1) cur).isSome = true := by
  intro k
  induction k with
  | zero =>
    intro cur hcur
    have h : ¬ (cur ≤ endFreq) := by
      push_cast at hcur
      intro hle
      linarith
    simp [freqLoopFuel, h]
  | succ k ih =>
    intro cur hcur
    by_cases h : cur ≤ endFreq
    · have hrec : endFreq - (cur + step) < (k : ℚ) * step := by
        push_cast at hcur ⊢
        linarith
      have hunf : freqLoopFuel step endFreq (k + 1 + 1) cur =
          if cur ≤ endFreq then
            (freqLoopFuel step endFreq (k + 1) (cur + step)).map (fun l => cur :: l)
          else some [] := rfl
      rw [hunf, if_pos h]
      simpa using ih (cur + step) hrec
    · simp [freqLoopFuel, h]

/-- Helper: with a non-positive step and a loop variable at or below the
bound, the loop condition `current_freq <= end_freq` stays true forever:
no fuel amount makes the loop finish. -/
theorem freqLoopFuel_none (step endFreq : ℚ) (hstep : step ≤ 0) :
    ∀ (fuel : ℕ) (cur : ℚ), cur ≤ endFreq →
      freqLoopFuel step endFreq fuel cur = none := by
  intro fuel
  induction fuel with
  | zero => intro cur _; rfl
  | succ fuel ih =>
    intro cur hcur
    have hnext : cur + step ≤ endFreq := by linarith
    simp only [freqLoopFuel, if_pos hcur, ih (cur + step) hnext, Option.map_none']

/-- C10, confirmed: for every strictly positive step (MHz) the loop of
`_reduce_frequency_points` terminates — some fuel amount suffices, so it
returns a finite list; for step ≤ 0 (zero or negative) the loop variable
never passes the fixed upper bound `200e6` starting from `50e6`, the
condition `current_freq <= end_freq` never becomes false, and the loop
runs forever — no fuel amount finishes it. -/
theorem claim_c10_loop (stepMhz : ℚ) (fuel : ℕ) :
    (0 < stepMhz → ∃ f, (reduceFrequencyPointsFuel stepMhz f).isSome = true) ∧
    (stepMhz ≤ 0 → reduceFrequencyPointsFuel stepMhz fuel = none) := by
  constructor
  · intro hpos
    have hstep : 0 < stepMhz * 1000000 := by positivity
    obtain ⟨k, hk⟩ := exists_nat_gt ((150000000 : ℚ) / (stepMhz * 1000000))
    have hlt : (150000000 : ℚ) < (k : ℚ) * (stepMhz * 1000000) :=
      (div_lt_iff₀ hstep).mp hk
    refine ⟨k + 1, freqLoopFuel_isSome _ _ k 50000000 ?_⟩
    norm_num
    linarith
  · intro hneg
    have hstep : stepMhz * 1000000 ≤ 0 := by
      have := mul_le_mul_of_nonneg_right hneg (by norm_num : (0:ℚ) ≤ 1000000)
      linarith
    exact freqLoopFuel_none _ _ hstep fuel 50000000 (by norm_num)

/-- C10 witness: a 5 MHz step terminates (some fuel suffices); a 0 MHz
step never returns, e.g. not within 1000 iterations. -/
theorem claim_c10_witness :
    (∃ f, (reduceFrequencyPointsFuel 5 f).isSome = true) ∧
    reduceFrequencyPointsFuel 0 1000 = none :=
  ⟨(claim_c10_loop 5 0).1 (by norm_num), (claim_c10_loop 0 1000).2 (by norm_num)⟩

/-- C3, counterexample: two successful units with different antenna gains
`[1]` and `[2]`, `shared_reference` on, matrix precompute off.  Fusion
overwrites both units' gains with the cross-unit mean `[3/2]`: the per-unit
gain vectors in the fused output do not equal those in the input. -/
theorem claim_c3_counterexample :
    optimizeCalibrationMatrices (fun _ => (1, 0)) true false
        (SdrOutcome.success ⟨[1], [0], [], -80, [], 0⟩)
        (SdrOutcome.success ⟨[2], [0], [], -80, [], 0⟩) =
      Except.ok (SdrOutcome.success ⟨[3/2], [0], [], -80, [], 0⟩,
        SdrOutcome.success ⟨[3/2], [0], [], -80, [], 0⟩) ∧
    [(3 : ℚ)/2] ≠ [1] := by
  constructor
  · norm_num [optimizeCalibrationMatrices, avgList]
  · norm_num

/-- C3 (amended): with `shared_reference` on and two successful units,
fusion overwrites each unit's antenna gains (with the cross-unit mean) as
well as the noise floor and phase offsets; the frequency response and
timestamp stay per-unit, and the calibration matrix is unchanged exactly
when `precompute_matrices` is disabled — when it is enabled, the matrix is
recomputed by `_precompute_calibration_matrix` from the unit's *fused*
(shared) gain and phase vectors. -/
theorem claim_c3_gain_overwrite (cexp : ℚ → ℚ × ℚ) (precompute : Bool)
    (d1 d2 : CalData) :
    ∃ e1 e2,
      optimizeCalibrationMatrices cexp true precompute
          (SdrOutcome.success d1) (SdrOutcome.success d2) =
        Except.ok (SdrOutcome.success e1, SdrOutcome.success e2) ∧
      e1.antenna_gains = avgList d1.antenna_gains d2.antenna_gains ∧
      e2.antenna_gains = avgList d1.antenna_gains d2.antenna_gains ∧
      e1.frequency_response = d1.frequency_response ∧
      e2.frequency_response = d2.frequency_response ∧
      e1.timestamp = d1.timestamp ∧
      e2.timestamp = d2.timestamp ∧
      (precompute = false → e1.calibration_matrix = d1.calibration_matrix ∧
        e2.calibration_matrix = d2.calibration_matrix) ∧
      (precompute = true →
        e1.calibration_matrix =
          precomputeCalibrationMatrix cexp
            ⟨avgList d1.antenna_gains d2.antenna_gains,
              avgList d1.phase_offsets d2.phase_offsets,
              d1.frequency_response, (d1.noise_floor + d2.noise_floor) / 2,
              d1.calibration_matrix, d1.timestamp⟩ ∧
        e2.calibration_matrix =
          precomputeCalibrationMatrix cexp
            ⟨avgList d1.antenna_gains d2.antenna_gains,
              avgList d1.phase_offsets d2.phase_offsets,
              d2.frequency_response, (d1.noise_floor + d2.noise_floor) / 2,
              d2.calibration_matrix, d2.timestamp⟩) := by
  cases precompute
  · exact ⟨_, _, rfl, rfl, rfl, rfl, rfl, rfl, rfl, fun _ => ⟨rfl, rfl⟩,
      fun h => Bool.noConfusion h⟩
  · exact ⟨_, _, rfl, rfl, rfl, rfl, rfl, rfl, rfl, fun h => Bool.noConfusion h,
      fun _ => ⟨rfl, rfl⟩⟩

/-- C3 witness: with precompute off, the fused gains equal the mean
`[3/2]` while the (distinct, nonempty) matrices pass through; with
precompute on at the same inputs, the first unit's matrix is recomputed
from the fused gain/phase vectors. -/
theorem claim_c3_witness :
    (∃ e1 e2,
      optimizeCalibrationMatrices (fun _ => (1, 0)) true false
          (SdrOutcome.success ⟨[1], [2], [7], -80, [[(5, 5)]], 3⟩)
          (SdrOutcome.success ⟨[2], [2], [8], -80, [[(6, 6)]], 4⟩) =
        Except.ok (SdrOutcome.success e1, SdrOutcome.success e2) ∧
      e1.antenna_gains = [3/2] ∧ e1.frequency_response = [7] ∧
      e1.calibration_matrix = [[(5, 5)]] ∧ e2.calibration_matrix = [[(6, 6)]]) ∧
    (∃ e1 e2,
      optimizeCalibrationMatrices (fun _ => (1, 0)) true true
          (SdrOutcome.success ⟨[1], [2], [7], -80, [[(5, 5)]], 3⟩)
          (SdrOutcome.success ⟨[2], [2], [8], -80, [[(6, 6)]], 4⟩) =
        Except.ok (SdrOutcome.success e1, SdrOutcome.success e2) ∧
      e1.calibration_matrix =
        precomputeCalibrationMatrix (fun _ => (1, 0))
          ⟨avgList [1] [2], avgList [2] [2], [7], (-80 + -80) / 2,
            [[(5, 5)]], 3⟩) := by
  constructor
  · obtain ⟨e1, e2, heq, hg1, _, hf1, _, _, _, hm, _⟩ :=
      claim_c3_gain_overwrite (fun _ => (1, 0)) false
        ⟨[1], [2], [7], -80, [[(5, 5)]], 3⟩ ⟨[2], [2], [8], -80, [[(6, 6)]], 4⟩
    obtain ⟨hm1, hm2⟩ := hm rfl
    refine ⟨e1, e2, heq, ?_, hf1, hm1, hm2⟩
    rw [hg1]
    norm_num [avgList]
  · obtain ⟨e1, e2, heq, _, _, _, _, _, _, _, hp⟩ :=
      claim_c3_gain_overwrite (fun _ => (1, 0)) true
        ⟨[1], [2], [7], -80, [[(5, 5)]], 3⟩ ⟨[2], [2], [8], -80, [[(6, 6)]], 4⟩
    obtain ⟨hp1, _⟩ := hp rfl
    exact ⟨e1, e2, heq, hp1⟩

/-- C7, confirmed: with `shared_reference` on and both (all ≥ 2) units
successful, the fused noise floor written into each unit is the arithmetic
mean of the units' noise floors, and the fused phase offsets are the
elementwise arithmetic mean of the units' phase offsets. -/
theorem claim_c7_shared_mean (cexp : ℚ → ℚ × ℚ) (precompute : Bool)
    (d1 d2 : CalData) :
    ∃ e1 e2,
      optimizeCalibrationMatrices cexp true precompute
          (SdrOutcome.success d1) (SdrOutcome.success d2) =
        Except.ok (SdrOutcome.success e1, SdrOutcome.success e2) ∧
      e1.noise_floor = (d1.noise_floor + d2.noise_floor) / 2 ∧
      e2.noise_floor = (d1.noise_floor + d2.noise_floor) / 2 ∧
      e1.phase_offsets = avgList d1.phase_offsets d2.phase_offsets ∧
      e2.phase_offsets = avgList d1.phase_offsets d2.phase_offsets := by
  cases precompute
  · exact ⟨_, _, rfl, rfl, rfl, rfl, rfl⟩
  · exact ⟨_, _, rfl, rfl, rfl, rfl, rfl⟩

/-- C7 witness, the spec's concrete scenario 1: unit A noise floor
`-80.0`, unit B `-79.5` — both fused units get noise floor `-79.75`. -/
theorem claim_c7_witness :
    ∃ e1 e2,
      optimizeCalibrationMatrices (fun _ => (1, 0)) true false
          (SdrOutcome.success ⟨[1], [0], [], -80, [], 0⟩)
          (SdrOutcome.success ⟨[1], [0], [], -79.5, [], 0⟩) =
        Except.ok (SdrOutcome.success e1, SdrOutcome.success e2) ∧
      e1.noise_floor = -79.75 ∧ e2.noise_floor = -79.75 := by
  obtain ⟨e1, e2, heq, h1, h2, _, _⟩ :=
    claim_c7_shared_mean (fun _ => (1, 0)) false
      ⟨[1], [0], [], -80, [], 0⟩ ⟨[1], [0], [], -79.5, [], 0⟩
  refine ⟨e1, e2, heq, ?_, ?_⟩
  · rw [h1]; norm_num
  · rw [h2]; norm_num

/-- C6, counterexample: `shared_reference` on (the default) with one
failed and one successful unit — exactly the "fewer than 2 successful
results" case, where the claim demands an unchanged pass-through.  The
fusion instead raises `KeyError` (the failed unit's queue entry has no
`calibration_data` key), so it does not return the inputs unchanged. -/
theorem claim_c6_counterexample :
    optimizeCalibrationMatrices (fun _ => (1, 0)) true true
        (SdrOutcome.error "sdr1 failed") (SdrOutcome.success ⟨[1], [0], [], -80, [], 0⟩) =
      Except.error PyError.keyError ∧
    (Except.error PyError.keyError :
        Except PyError (SdrOutcome × SdrOutcome)) ≠
      Except.ok (SdrOutcome.error "sdr1 failed",
        SdrOutcome.success ⟨[1], [0], [], -80, [], 0⟩) := by
  exact ⟨rfl, fun h => nomatch h⟩

/-- C6 (amended): fusion is a pass-through exactly when
`shared_calibration_data` is false — then every unit entry, including any
failed unit, is returned unchanged, whatever the success count.  When the
flag is true the success count is never consulted: if either unit's entry
lacks calibration data, fusion raises `KeyError` instead of passing
through. -/
theorem claim_c6_passthrough (cexp : ℚ → ℚ × ℚ) (precompute : Bool)
    (o1 o2 : SdrOutcome) (m : String) (d : CalData) :
    optimizeCalibrationMatrices cexp false precompute o1 o2 =
      Except.ok (o1, o2) ∧
    optimizeCalibrationMatrices cexp true precompute (SdrOutcome.error m) o2 =
      Except.error PyError.keyError ∧
    optimizeCalibrationMatrices cexp true precompute (SdrOutcome.success d)
        (SdrOutcome.error m) =
      Except.error PyError.keyError := by
  refine ⟨rfl, ?_, rfl⟩
  cases o2
  · rfl
  · rfl

/-- C2, counterexample: with the default flags (`shared_calibration_data`
on, no cache hit), one unit fails and one succeeds — at least one unit
succeeded, yet the run raises (`KeyError` inside the fusion step) instead
of returning a per-unit-flagged result; and no `OrchestrationError` exists
anywhere in the code. -/
theorem claim_c2_counterexample :
    runOptimizedCalibration (fun _ => (1, 0)) false none true true
        (SdrOutcome.error "sdr1 failed")
        (SdrOutcome.success ⟨[1], [0], [], -80, [], 0⟩) =
      Except.error PyError.keyError := by
  rfl

/-- C2 (amended): the run never raises an `OrchestrationError` (none is
defined).  With `shared_calibration_data` off (and no cache hit) the run
returns without exception for *every* combination of unit outcomes —
including all units failed — each failed unit flagged per-unit by its
error-status queue entry; with the flag on, the run raises `KeyError`
whenever any unit failed, even if the other succeeded. -/
theorem claim_c2_run (cexp : ℚ → ℚ × ℚ) (precompute : Bool)
    (o1 o2 : SdrOutcome) (m : String) (d : CalData) :
    runOptimizedCalibration cexp false none false precompute o1 o2 =
      Except.ok (o1, o2) ∧
    runOptimizedCalibration cexp false none true precompute
        (SdrOutcome.error m) o2 =
      Except.error PyError.keyError ∧
    runOptimizedCalibration cexp false none true precompute
        (SdrOutcome.success d) (SdrOutcome.error m) =
      Except.error PyError.keyError := by
  refine ⟨rfl, ?_, rfl⟩
  cases o2
  · rfl
  · rfl

/-- Helper: a constant spectrum has no peaks — the strict-neighbour
comparison `data[i] > data[i-1]` can never hold. -/
theorem findPeaks_replicate (n : ℕ) (c t : ℚ) :
    findPeaks (List.replicate n c) t = [] := by
  unfold findPeaks
  rw [List.filter_eq_nil_iff]
  intro i hi
  simp only [List.length_replicate, List.mem_range] at hi
  simp only [List.length_replicate, Bool.and_eq_true, decide_eq_true_eq]
  rintro ⟨⟨⟨⟨h0, h1⟩, h2⟩, h3⟩, h4⟩
  have e1 : (List.replicate n c).getD (i - 1) 0 = c := by
    rw [List.getD_eq_getElem?_getD, List.getElem?_replicate, if_pos (by omega)]
    rfl
  have e2 : (List.replicate n c).getD i 0 = c := by
    rw [List.getD_eq_getElem?_getD, List.getElem?_replicate, if_pos hi]
    rfl
  rw [e1, e2] at h2
  exact lt_irrefl c h2

/-- C5, counterexample: on an all-zero power spectrum (8 bins, the
configured `fft_size`) no peak is detected, `_find_peaks` returns the
empty (float64) `np.array([])`, and `self.freq_bins[peak_indices]` then
raises `IndexError` — the function fails; it neither falls back to a
fixed-step plan nor returns a non-empty plan. -/
theorem claim_c5_counterexample :
    optimizeFrequencyHopping 2048000 8 (List.replicate 8 0) =
      Except.error PyError.indexError := by
  simp only [optimizeFrequencyHopping, findPeaks_replicate]
  simp

/-- C5 (amended): signal-informed planning has no fixed-step fallback and
can both fail and return an empty plan: when zero peaks are detected, the
indexing of `freq_bins` by the empty float64 index array raises
`IndexError` (so the run fails, e.g. on any flat spectrum); when at least
one peak is detected, it returns exactly the frequencies of the detected
peaks that survive the noise-floor filter, and that plan is empty
precisely when every detected peak's power fails to exceed twice the
10th-percentile noise floor. -/
theorem claim_c5_no_fallback (sampleRate : ℚ) (fftSize : ℕ)
    (powerSpectrum : List ℚ) :
    (findPeaks powerSpectrum (1 / 10) = [] →
      optimizeFrequencyHopping sampleRate fftSize powerSpectrum =
        Except.error PyError.indexError) ∧
    (findPeaks powerSpectrum (1 / 10) ≠ [] →
      ∃ l, optimizeFrequencyHopping sampleRate fftSize powerSpectrum =
          Except.ok l ∧
        (l = [] ↔ ∀ i ∈ findPeaks powerSpectrum (1 / 10),
          powerSpectrum.getD i 0 ≤ percentile10 powerSpectrum * 2)) := by
  have hdef : optimizeFrequencyHopping sampleRate fftSize powerSpectrum =
      if findPeaks powerSpectrum (1 / 10) = [] then
        Except.error PyError.indexError
      else
        Except.ok (((findPeaks powerSpectrum (1 / 10)).filter
            (fun i =>
              decide (percentile10 powerSpectrum * 2 <
                powerSpectrum.getD i 0))).map
          (fun i => (fftfreq fftSize (1 / sampleRate)).getD i 0)) := rfl
  rw [hdef]
  constructor
  · intro h
    rw [if_pos h]
  · intro h
    rw [if_neg h]
    refine ⟨_, rfl, ?_⟩
    rw [List.map_eq_nil_iff, List.filter_eq_nil_iff]
    simp only [decide_eq_true_eq, not_lt]

/-- C5 witness: a flat positive spectrum (every bin `5`) has no strict
peaks, so the characterization yields the `IndexError`; the spectrum
`[4, 5, 4, 4]` has one detected peak (bin 1, power 5) whose power does not
exceed twice the 10th-percentile noise floor (2 · 4 = 8), so the plan is
returned but empty. -/
theorem claim_c5_witness :
    optimizeFrequencyHopping 2048000 4 (List.replicate 4 5) =
      Except.error PyError.indexError ∧
    ∃ l, optimizeFrequencyHopping 2048000 4 [4, 5, 4, 4] = Except.ok l ∧
      l = [] := by
  have hp : findPeaks [4, 5, 4, 4] (1 / 10) = [1] := by
    norm_num [findPeaks, List.range_succ, List.filter_append, List.filter_cons,
      List.getD_cons_zero, List.getD_cons_succ]
  have hpct : percentile10 [4, 5, 4, 4] = 4 := by
    norm_num [percentile10, npSort, List.insertionSort, List.orderedInsert,
      List.getD_cons_zero, List.getD_cons_succ]
  constructor
  · exact (claim_c5_no_fallback 2048000 4 (List.replicate 4 5)).1
      (findPeaks_replicate 4 5 (1 / 10))
  · obtain ⟨l, hl, hiff⟩ :=
      (claim_c5_no_fallback 2048000 4 [4, 5, 4, 4]).2
        (by rw [hp]; exact List.cons_ne_nil 1 [])
    refine ⟨l, hl, hiff.mpr ?_⟩
    rw [hp]
    intro i hi
    rw [List.mem_singleton] at hi
    subst hi
    rw [hpct]
    norm_num [List.getD_cons_zero, List.getD_cons_succ]
